import Mathlib

/-!
Shallow embedding of the reciprocal merged Instaseis database
(`instaseis/database_interfaces/reciprocal_merged_instaseis_db.py`).

Numbers are modelled by `ℚ` (exact arithmetic in place of IEEE doubles).
External collaborators that the spec puts out of scope (the rotation
library, the SEM derivative operators `strain_*_td`, the 2-D Lagrange
interpolation routine `lagrange_interpol_2D_td` and the numpy
trigonometric functions) are abstracted as fields of an `Externals`
structure.  Arrays are total functions on `Fin`-indexed axes; a Python
dict with a fixed key set is a function from the key type.  The element
cache (`mesh.strain_buffer` / `mesh.displ_buffer`), whose implementation
is not among the modelled sources, is modelled from the spec (section
4.1): a bounded LRU store over a byte budget.
-/

set_option autoImplicit false

namespace InstaseisModel

/-- Time-major decoded field group with `c` channels: axes
(time sample, xi node, eta node, channel); spec section 3,
"Decoded field group". -/
abbrev Field4 (nt nnod c : ℕ) := Fin nt → Fin nnod → Fin nnod → Fin c → ℚ

/-- Per-element strain tensor field, axes (time, xi, eta, Voigt component),
as produced by the derivative operators. -/
abbrev StrainField (nt nnod : ℕ) := Field4 nt nnod 6

/-- Interpolated 6-component Voigt strain, one vector per time sample. -/
abbrev StrainVec (nt : ℕ) := Fin nt → Fin 6 → ℚ

/-- Interpolated 3-component displacement, one vector per time sample. -/
abbrev DisplVec (nt : ℕ) := Fin nt → Fin 3 → ℚ

/-- Value cached in the strain buffer: the pre-interpolation
`(strain_x, strain_z)` pair; either group may be absent (`None`). -/
abbrev StrainPair (nt nnod : ℕ) :=
  Option (StrainField nt nnod) × Option (StrainField nt nnod)

/-- Value cached in the displacement buffer: the decoded
`(utemp_x, utemp_z)` pair of 3-channel groups. -/
abbrev DisplPair (nt nnod : ℕ) := Field4 nt nnod 3 × Field4 nt nnod 3

/-- Output component codes; the produced query interface accepts a set of
these five codes (spec section 6). -/
inductive Comp
  | Z
  | R
  | T
  | N
  | E
  deriving DecidableEq

/-- Failure modes of the query pipeline.  Python raises exceptions; the
spec gives abstract names to the error kinds (section 7). -/
inductive InstaseisError
  /-- Python `raise NotImplementedError` at the source-dispatch else
  branch (`_get_data` line 222, `_get_data_multiple` line 399); the spec
  calls this kind `UnsupportedSourceType`. -/
  | unsupportedSourceType
  /-- Python `raise NotImplementedError` for dump types other than
  `displ_only` (lines 87, 115, 172); the spec calls this kind
  `NotImplementedForDatabaseLayout`. -/
  | notImplementedForLayout
  /-- Python `raise ValueError` in `_get_data_multiple` (line 235) for
  dump types other than `displ_only`. -/
  | valueError
  /-- Python `TypeError`/`AttributeError` raised when a contraction uses a
  field group that is `None`. -/
  | noneTypeError
  /-- Error kind named `UnsupportedDumpConfiguration` by the spec
  (sections 4.2 and 7); no raise site in the modelled sources produces it. -/
  | unsupportedDumpConfiguration
  /-- Python `IndexError` from indexing a missing channel
  (`_get_displacement` with fewer than 3 stored components). -/
  | indexError
  deriving DecidableEq

/-- Dump-type configurations distinguished by the code
(`self.info.dump_type`). -/
inductive DumpType
  | displ_only
  | fullfields
  | strain_only
  deriving DecidableEq

/-- Source descriptor: a moment-tensor `Source`, a `ForceSource`, or any
other object (`other`), which the code rejects. -/
inductive SourceObj
  /-- Moment-tensor source: Voigt tensor plus geographic angles. -/
  | source (tensor_voigt : Fin 6 → ℚ) (longitude colatitude : ℚ)
  /-- Force source: force vector in the local spherical frame plus
  geographic angles. -/
  | forceSource (force_tpr : Fin 3 → ℚ) (longitude colatitude : ℚ)
  /-- Any object that is neither a `Source` nor a `ForceSource`. -/
  | other

/-- Receiver descriptor (the fields `_get_data` reads). -/
structure ReceiverDesc where
  longitude : ℚ
  colatitude : ℚ

/-- Receiver-projected coordinates; `phi` is the source-receiver azimuth. -/
structure Coordinates where
  phi : ℚ

/-- Resolved element information (`element_info` / `ei`). -/
structure ElementInfo (nnod : ℕ) where
  id_elem : ℕ
  gll_point_ids : ℕ → ℕ → ℕ
  col_points_xi : Fin nnod → ℚ
  col_points_eta : Fin nnod → ℚ
  corner_points : Fin 4 → Fin 2 → ℚ
  eltype : ℕ
  axis : Bool
  xi : ℚ
  eta : ℚ

/-- The parsed merged mesh: global tables indexed by grid-point id,
derivative-operator matrices, the amplitude normalization, the spatial
order (`npol`, also `info.spatial_order`), and the raw per-element
snapshot blocks `f["MergedSnapshots"]` with axes
(component, jpol, ipol, time).  The `mesh_*` tables stand for both the
prefetched in-memory tables and the `read_on_demand` backing reads,
which hold the same data. -/
structure MeshM (nt nnod ncomp : ℕ) where
  amplitude : ℚ
  mesh_mu : ℕ → ℚ
  mesh_rho : ℕ → ℚ
  mesh_lambda : ℕ → ℚ
  mesh_xi : ℕ → ℚ
  mesh_phi : ℕ → ℚ
  mesh_eta : ℕ → ℚ
  G1T : Fin nnod → Fin nnod → ℚ
  G2 : Fin nnod → Fin nnod → ℚ
  G2T : Fin nnod → Fin nnod → ℚ
  npol : ℕ
  merged_snapshots : ℕ → Fin ncomp → Fin nnod → Fin nnod → Fin nt → ℚ

/-- External math collaborators consumed by the pipeline (spec section 6):
numpy trigonometry, the rotation library, the SEM derivative operators
and the 2-D Lagrange interpolation routine. -/
structure Externals where
  cos : ℚ → ℚ
  sin : ℚ → ℚ
  deg2rad : ℚ → ℚ
  rotate_symm_tensor_voigt_xyz_src_to_xyz_earth : (Fin 6 → ℚ) → ℚ → ℚ → (Fin 6 → ℚ)
  rotate_symm_tensor_voigt_xyz_earth_to_xyz_src : (Fin 6 → ℚ) → ℚ → ℚ → (Fin 6 → ℚ)
  rotate_symm_tensor_voigt_xyz_to_src : (Fin 6 → ℚ) → ℚ → (Fin 6 → ℚ)
  rotate_vector_xyz_src_to_xyz_earth : (Fin 3 → ℚ) → ℚ → ℚ → (Fin 3 → ℚ)
  rotate_vector_xyz_earth_to_xyz_src : (Fin 3 → ℚ) → ℚ → ℚ → (Fin 3 → ℚ)
  rotate_vector_xyz_to_src : (Fin 3 → ℚ) → ℚ → (Fin 3 → ℚ)
  strain_monopole_td : ∀ {nt nnod : ℕ}, Field4 nt nnod 3 →
    (Fin nnod → Fin nnod → ℚ) → (Fin nnod → Fin nnod → ℚ) →
    (Fin nnod → ℚ) → (Fin nnod → ℚ) → ℕ → ℕ →
    (Fin 4 → Fin 2 → ℚ) → ℕ → Bool → StrainField nt nnod
  strain_dipole_td : ∀ {nt nnod : ℕ}, Field4 nt nnod 3 →
    (Fin nnod → Fin nnod → ℚ) → (Fin nnod → Fin nnod → ℚ) →
    (Fin nnod → ℚ) → (Fin nnod → ℚ) → ℕ → ℕ →
    (Fin 4 → Fin 2 → ℚ) → ℕ → Bool → StrainField nt nnod
  strain_quadpole_td : ∀ {nt nnod : ℕ}, Field4 nt nnod 3 →
    (Fin nnod → Fin nnod → ℚ) → (Fin nnod → Fin nnod → ℚ) →
    (Fin nnod → ℚ) → (Fin nnod → ℚ) → ℕ → ℕ →
    (Fin 4 → Fin 2 → ℚ) → ℕ → Bool → StrainField nt nnod
  lagrange_interpol_2D_td : ∀ {nt nnod : ℕ}, (Fin nnod → ℚ) → (Fin nnod → ℚ) →
    (Fin nt → Fin nnod → Fin nnod → ℚ) → ℚ → ℚ → Fin nt → ℚ

/-- Result dictionary of `_get_data`: the scalar entry `data["mu"]` plus
one optional time series per output component code. -/
structure DataDict (nt : ℕ) where
  mu : ℚ
  series : Comp → Option (Fin nt → ℚ)

/-- Elastic parameter set returned by the batch path
(`params` of `_get_data_multiple`). -/
structure Params where
  mu : ℚ
  rho : ℚ
  lbda : ℚ
  xi : ℚ
  phi : ℚ
  eta : ℚ

/-- Modelled from the spec: the bounded LRU ElementCache of section 4.1
(the classes behind `mesh.strain_buffer` and `mesh.displ_buffer` are not
among the modelled source files).  Entries are kept most-recently-used
first; `add` inserts at the front and evicts least-recently-used entries
(from the back) until the estimated byte total is within the budget;
`get` returns the stored value and refreshes recency.  The per-entry
byte estimate is abstracted as the function `vbytes`. -/
structure Buffer (V : Type) where
  vbytes : V → ℕ
  maxBytes : ℕ
  entries : List (ℕ × V)

/-- Membership test of the cache (`id_elem in mesh.strain_buffer`). -/
def Buffer.contains {V : Type} (b : Buffer V) (id : ℕ) : Bool :=
  b.entries.any (fun e => e.1 == id)

/-- Eviction worker: drop the least-recently-used entry (the last one)
while the estimated byte total exceeds the budget.  The fuel argument
makes the recursion structural; with fuel at least the list length the
loop always terminates at the budget test (an empty list has byte total
zero). -/
def trimFuel {V : Type} (vbytes : V → ℕ) (maxBytes : ℕ) :
    ℕ → List (ℕ × V) → List (ℕ × V)
  | 0, es => es
  | fuel + 1, es =>
    if (es.map (fun e => vbytes e.2)).sum ≤ maxBytes then es
    else trimFuel vbytes maxBytes fuel es.dropLast

/-- Evict least-recently-used entries (from the back of the list) until
the estimated byte total is within the budget. -/
def trimLRU {V : Type} (vbytes : V → ℕ) (maxBytes : ℕ) (es : List (ℕ × V)) :
    List (ℕ × V) :=
  trimFuel vbytes maxBytes es.length es

/-- Insert an entry at the most-recent position, then evict down to the
byte budget. -/
def Buffer.add {V : Type} (b : Buffer V) (id : ℕ) (v : V) : Buffer V :=
  { b with
    entries := trimLRU b.vbytes b.maxBytes
      ((id, v) :: b.entries.filter (fun e => ¬ (e.1 == id))) }

/-- Look up an entry and refresh its recency; `none` models the
`KeyNotFound` failure of the no-fallback accessor. -/
def Buffer.get {V : Type} (b : Buffer V) (id : ℕ) : Option (V × Buffer V) :=
  match b.entries.find? (fun e => e.1 == id) with
  | none => none
  | some e =>
      some (e.2, { b with entries := e :: b.entries.filter (fun x => ¬ (x.1 == id)) })

/-- Mutable-per-database state: the two element caches. -/
structure DBState (nt nnod : ℕ) where
  strain_buffer : Buffer (StrainPair nt nnod)
  displ_buffer : Buffer (DisplPair nt nnod)

/-- Read of the raw snapshot block plus the three `np.rollaxis` calls of
`_get_and_reorder_utemp`: `(nvars, jpol, ipol, npts)` becomes
`(npts, jpol, ipol, nvars)`. -/
def get_and_reorder_utemp {nt nnod ncomp : ℕ} (msh : MeshM nt nnod ncomp)
    (id_elem : ℕ) : Field4 nt nnod ncomp :=
  fun t j i v => msh.merged_snapshots id_elem v j i t

/-- Construction of the 3-channel vertical group `utemp_z` from a raw
block with 2 or 5 components (`_get_strain_interp` lines 446-461): for a
2-channel block, channel 0 is source channel 0, channel 2 is source
channel 1 and channel 1 stays zero; otherwise the last three source
channels are taken, channel 0 is overwritten with channel 1 of that
slice (source channel `ncomp - 2`) and channel 1 is forced to zero.
The Python assignments mutate a fresh view of this call's `utemp`;
`utemp_x` was already copied to Fortran order beforehand, so the
mutation is local and the functional construction below is its result. -/
def build_utemp_z {nt nnod ncomp : ℕ} (h25 : ncomp = 2 ∨ ncomp = 5)
    (utemp : Field4 nt nnod ncomp) : Field4 nt nnod 3 :=
  if h2 : ncomp = 2 then
    fun t j i => ![utemp t j i ⟨0, by omega⟩, 0, utemp t j i ⟨1, by omega⟩]
  else
    fun t j i => ![utemp t j i ⟨ncomp - 2, by omega⟩, 0, utemp t j i ⟨ncomp - 1, by omega⟩]

/-- Interpolation step of `_get_strain_interp` (lines 474-491): each of
the six Voigt components of a (possibly absent) strain field is Lagrange
interpolated at the target coordinate, and for every group except
`strain_z` the components at Voigt positions 3 and 5 are multiplied by
`-1`. -/
def finalize_strain {nt nnod : ℕ} (Ex : Externals)
    (col_points_xi col_points_eta : Fin nnod → ℚ) (xi eta : ℚ) (isZ : Bool) :
    Option (StrainField nt nnod) → Option (StrainVec nt)
  | none => none
  | some strain =>
      let final : Fin nt → Fin 6 → ℚ := fun t i =>
        Ex.lagrange_interpol_2D_td col_points_xi col_points_eta
          (fun t j k => strain t j k i) xi eta t
      some (if isZ then final
            else fun t i => if i = 3 ∨ i = 5 then final t i * (-1) else final t i)

/-- Model of `_get_strain_interp` (lines 417-491).  On a cache miss the
raw block is read and reordered; the horizontal group (first three
channels) feeds the dipole derivative operator when at least three
components are stored, the vertical group feeds the monopole operator
when 2 or 5 components are stored, and the resulting
`(strain_x, strain_z)` pair of pre-interpolation fields is added to the
strain buffer.  On a hit the stored pair is taken from the buffer.  The
interpolation (and the shear sign flip for the horizontal group) is then
applied outside the cache in both cases. -/
def get_strain_interp {nt nnod ncomp : ℕ} (Ex : Externals)
    (msh : MeshM nt nnod ncomp) (id_elem : ℕ)
    (G GT : Fin nnod → Fin nnod → ℚ)
    (col_points_xi col_points_eta : Fin nnod → ℚ)
    (corner_points : Fin 4 → Fin 2 → ℚ) (eltype : ℕ) (axis : Bool)
    (xi eta : ℚ) (buf : Buffer (StrainPair nt nnod)) :
    (Option (StrainVec nt) × Option (StrainVec nt)) × Buffer (StrainPair nt nnod) :=
  let res : StrainPair nt nnod × Buffer (StrainPair nt nnod) :=
    if buf.contains id_elem = false then
      let utemp := get_and_reorder_utemp msh id_elem
      let strain_x : Option (StrainField nt nnod) :=
        if h3 : 3 ≤ ncomp then
          some (Ex.strain_dipole_td (fun t j i v => utemp t j i (Fin.castLE h3 v))
            G GT col_points_xi col_points_eta msh.npol nt corner_points eltype axis)
        else none
      let strain_z : Option (StrainField nt nnod) :=
        if h25 : ncomp = 2 ∨ ncomp = 5 then
          some (Ex.strain_monopole_td (build_utemp_z h25 utemp)
            G GT col_points_xi col_points_eta msh.npol nt corner_points eltype axis)
        else none
      ((strain_x, strain_z), buf.add id_elem (strain_x, strain_z))
    else
      match buf.get id_elem with
      | some p => p
      | none => ((none, none), buf)
  ((finalize_strain Ex col_points_xi col_points_eta xi eta false res.1.1,
    finalize_strain Ex col_points_xi col_points_eta xi eta true res.1.2),
   res.2)

/-- Model of `_get_displacement` (lines 493-527).  On a miss the first
three channels form `utemp_x`, the last three form `utemp_z` with
channel 0 overwritten by channel 1 and channel 1 zeroed, and the pair is
buffered; on a hit the stored pair is reused.  Each of the three
channels of both groups is then Lagrange interpolated at the target
coordinate.  With fewer than 3 stored components the Python channel loop
raises `IndexError`; that raise is modelled by the guard below (the
Python buffer would retain the partially built entry, which no caller
observes after the raise). -/
def get_displacement {nt nnod ncomp : ℕ} (Ex : Externals)
    (msh : MeshM nt nnod ncomp) (id_elem : ℕ)
    (col_points_xi col_points_eta : Fin nnod → ℚ) (xi eta : ℚ)
    (buf : Buffer (DisplPair nt nnod)) :
    Except InstaseisError ((DisplVec nt × DisplVec nt) × Buffer (DisplPair nt nnod)) :=
  if h3 : 3 ≤ ncomp then
    let res : DisplPair nt nnod × Buffer (DisplPair nt nnod) :=
      if buf.contains id_elem = false then
        let utemp := get_and_reorder_utemp msh id_elem
        let utemp_x : Field4 nt nnod 3 := fun t j i v => utemp t j i (Fin.castLE h3 v)
        let utemp_z : Field4 nt nnod 3 := fun t j i =>
          ![utemp t j i ⟨ncomp - 2, by omega⟩, 0, utemp t j i ⟨ncomp - 1, by omega⟩]
        ((utemp_x, utemp_z), buf.add id_elem (utemp_x, utemp_z))
      else
        match buf.get id_elem with
        | some p => p
        | none => ((fun _ _ _ _ => 0, fun _ _ _ _ => 0), buf)
    let final_displacement_x : DisplVec nt := fun t i =>
      Ex.lagrange_interpol_2D_td col_points_xi col_points_eta
        (fun t j k => res.1.1 t j k i) xi eta t
    let final_displacement_z : DisplVec nt := fun t i =>
      Ex.lagrange_interpol_2D_td col_points_xi col_points_eta
        (fun t j k => res.1.2 t j k i) xi eta t
    Except.ok ((final_displacement_x, final_displacement_z), res.2)
  else Except.error InstaseisError.indexError

/-- Azimuth factor dictionary `fac_1_map` of lines 92-93 (and 268-269).
The Python dict holds entries for the keys N and E only and is only ever
indexed with those keys; other codes map to a junk value. -/
def fac_1_map (Ex : Externals) : Comp → ℚ → ℚ
  | Comp.N => Ex.cos
  | Comp.E => Ex.sin
  | _ => fun _ => 0

/-- Azimuth factor dictionary `fac_2_map` of lines 94-95 (and 270-271). -/
def fac_2_map (Ex : Externals) : Comp → ℚ → ℚ
  | Comp.N => fun x => - Ex.sin x
  | Comp.E => Ex.cos
  | _ => fun _ => 0

/-- Operator selection of `_get_data` lines 99-104 (textually repeated at
`_get_data_multiple` lines 274-279): the primary operator is `G2` in
both branches of the axis test; only the transpose operator depends on
the axis flag. -/
def select_G_GT {nt nnod ncomp : ℕ} (msh : MeshM nt nnod ncomp) (axis : Bool) :
    (Fin nnod → Fin nnod → ℚ) × (Fin nnod → Fin nnod → ℚ) :=
  if axis then (msh.G2, msh.G1T) else (msh.G2, msh.G2T)

/-- Rotation and amplitude normalization of the Voigt moment tensor,
mirroring `_get_data` lines 117-127 (textually repeated at
`_get_data_multiple` lines 301-311). -/
def computeMij (Ex : Externals) (tensor_voigt : Fin 6 → ℚ) (lon colat : ℚ)
    (receiver : ReceiverDesc) (coordinates : Coordinates) (amplitude : ℚ) :
    Fin 6 → ℚ :=
  let mij := Ex.rotate_symm_tensor_voigt_xyz_src_to_xyz_earth tensor_voigt
    (Ex.deg2rad lon) (Ex.deg2rad colat)
  let mij := Ex.rotate_symm_tensor_voigt_xyz_earth_to_xyz_src mij
    (Ex.deg2rad receiver.longitude) (Ex.deg2rad receiver.colatitude)
  let mij := Ex.rotate_symm_tensor_voigt_xyz_to_src mij coordinates.phi
  fun i => mij i / amplitude

/-- Rotation and amplitude normalization of the force vector, mirroring
`_get_data` lines 179-187 (textually repeated at `_get_data_multiple`
lines 355-363). -/
def computeForce (Ex : Externals) (force_tpr : Fin 3 → ℚ) (lon colat : ℚ)
    (receiver : ReceiverDesc) (coordinates : Coordinates) (amplitude : ℚ) :
    Fin 3 → ℚ :=
  let force := Ex.rotate_vector_xyz_src_to_xyz_earth force_tpr
    (Ex.deg2rad lon) (Ex.deg2rad colat)
  let force := Ex.rotate_vector_xyz_earth_to_xyz_src force
    (Ex.deg2rad receiver.longitude) (Ex.deg2rad receiver.colatitude)
  let force := Ex.rotate_vector_xyz_to_src force coordinates.phi
  fun i => force i / amplitude

/-- Per-component contraction of the rotated moment tensor against the
interpolated strain, mirroring the blocks of `_get_data` lines 129-166,
which are textually identical to the per-source loop body of
`_get_data_multiple` lines 313-350 (each `final` starts from `np.zeros`
and accumulates).  Requesting a component whose field group is `None`
reproduces the Python `TypeError` on `None`. -/
def momentSynthesize {nt : ℕ} (Ex : Externals) (phi : ℚ) (mij : Fin 6 → ℚ)
    (components : List Comp)
    (strain_x_opt strain_z_opt : Option (StrainVec nt)) :
    Except InstaseisError (Comp → Option (Fin nt → ℚ)) :=
  let sZ : Except InstaseisError (Option (Fin nt → ℚ)) :=
    if Comp.Z ∈ components then
      match strain_z_opt with
      | none => Except.error InstaseisError.noneTypeError
      | some strain_z =>
          Except.ok (some (fun t =>
            0 + mij 0 * strain_z t 0 + mij 1 * strain_z t 1 + mij 2 * strain_z t 2
              + 2 * mij 4 * strain_z t 4))
    else Except.ok none
  let sR : Except InstaseisError (Option (Fin nt → ℚ)) :=
    if Comp.R ∈ components then
      match strain_x_opt with
      | none => Except.error InstaseisError.noneTypeError
      | some strain_x =>
          Except.ok (some (fun t =>
            0 - strain_x t 0 * mij 0 * 1 - strain_x t 1 * mij 1 * 1
              - strain_x t 2 * mij 2 * 1 - strain_x t 4 * mij 4 * 2))
    else Except.ok none
  let sT : Except InstaseisError (Option (Fin nt → ℚ)) :=
    if Comp.T ∈ components then
      match strain_x_opt with
      | none => Except.error InstaseisError.noneTypeError
      | some strain_x =>
          Except.ok (some (fun t =>
            0 + strain_x t 3 * mij 3 * 2 + strain_x t 5 * mij 5 * 2))
    else Except.ok none
  let sNE : Comp → Except InstaseisError (Option (Fin nt → ℚ)) := fun comp =>
    if comp ∈ components then
      match strain_x_opt with
      | none => Except.error InstaseisError.noneTypeError
      | some strain_x =>
          let fac_1 := fac_1_map Ex comp phi
          let fac_2 := fac_2_map Ex comp phi
          let final : Fin nt → ℚ := fun t =>
            0 + strain_x t 0 * mij 0 * 1 * fac_1 + strain_x t 1 * mij 1 * 1 * fac_1
              + strain_x t 2 * mij 2 * 1 * fac_1 + strain_x t 3 * mij 3 * 2 * fac_2
              + strain_x t 4 * mij 4 * 2 * fac_1 + strain_x t 5 * mij 5 * 2 * fac_2
          let final := if comp = Comp.N then (fun t => final t * (-1)) else final
          Except.ok (some final)
    else Except.ok none
  match sZ with
  | Except.error e => Except.error e
  | Except.ok dZ =>
    match sR with
    | Except.error e => Except.error e
    | Except.ok dR =>
      match sT with
      | Except.error e => Except.error e
      | Except.ok dT =>
        match sNE Comp.E with
        | Except.error e => Except.error e
        | Except.ok dE =>
          match sNE Comp.N with
          | Except.error e => Except.error e
          | Except.ok dN =>
              Except.ok (fun c =>
                match c with
                | Comp.Z => dZ
                | Comp.R => dR
                | Comp.T => dT
                | Comp.N => dN
                | Comp.E => dE)

/-- Per-component contraction of the rotated force vector against the
interpolated displacement, mirroring the blocks of `_get_data`
lines 189-219, which are textually identical to the per-source loop body
of `_get_data_multiple` lines 365-395.  Both displacement groups are
always present, so no failure can occur here. -/
def forceSynthesize {nt : ℕ} (Ex : Externals) (phi : ℚ) (force : Fin 3 → ℚ)
    (components : List Comp) (displ_x displ_z : DisplVec nt) :
    Comp → Option (Fin nt → ℚ) :=
  let dZ : Option (Fin nt → ℚ) :=
    if Comp.Z ∈ components then
      some (fun t => 0 + displ_z t 0 * force 0 + displ_z t 2 * force 2)
    else none
  let dR : Option (Fin nt → ℚ) :=
    if Comp.R ∈ components then
      some (fun t => 0 + displ_x t 0 * force 0 + displ_x t 2 * force 2)
    else none
  let dT : Option (Fin nt → ℚ) :=
    if Comp.T ∈ components then
      some (fun t => 0 + displ_x t 1 * force 1)
    else none
  let dNE : Comp → Option (Fin nt → ℚ) := fun comp =>
    if comp ∈ components then
      let fac_1 := fac_1_map Ex comp phi
      let fac_2 := fac_2_map Ex comp phi
      let final : Fin nt → ℚ := fun t =>
        0 + displ_x t 0 * force 0 * fac_1 + displ_x t 1 * force 1 * fac_2
          + displ_x t 2 * force 2 * fac_1
      let final := if comp = Comp.N then (fun t => final t * (-1)) else final
      some final
    else none
  fun c =>
    match c with
    | Comp.Z => dZ
    | Comp.R => dR
    | Comp.T => dT
    | Comp.N => dNE Comp.N
    | Comp.E => dNE Comp.E

/-- Model of `_get_data` (lines 68-224).  Non-`displ_only` dump types
raise while fetching `mu` (lines 81-89), before the source dispatch.
For a moment-tensor source the strain pipeline runs with the operators
of `select_G_GT`; for a force source the displacement pipeline runs; any
other source object raises (line 222).  The Python dict with keys
`mu`, `Z`, `R`, `T`, `N`, `E` is represented by `DataDict` (distinct
keys, so the dict is its per-key contents). -/
def get_data {nt nnod ncomp : ℕ} (Ex : Externals) (msh : MeshM nt nnod ncomp)
    (dump : DumpType) (source : SourceObj) (receiver : ReceiverDesc)
    (components : List Comp) (coordinates : Coordinates)
    (ei : ElementInfo nnod) (st : DBState nt nnod) :
    Except InstaseisError (DataDict nt × DBState nt nnod) :=
  match dump with
  | DumpType.fullfields => Except.error InstaseisError.notImplementedForLayout
  | DumpType.strain_only => Except.error InstaseisError.notImplementedForLayout
  | DumpType.displ_only =>
    let mu := msh.mesh_mu (ei.gll_point_ids (msh.npol / 2) (msh.npol / 2))
    match source with
    | SourceObj.source tensor_voigt lon colat =>
      let gpair := select_G_GT msh ei.axis
      let sres := get_strain_interp Ex msh ei.id_elem gpair.1 gpair.2
        ei.col_points_xi ei.col_points_eta ei.corner_points ei.eltype ei.axis
        ei.xi ei.eta st.strain_buffer
      let mij := computeMij Ex tensor_voigt lon colat receiver coordinates msh.amplitude
      match momentSynthesize Ex coordinates.phi mij components sres.1.1 sres.1.2 with
      | Except.error e => Except.error e
      | Except.ok series => Except.ok (⟨mu, series⟩, ⟨sres.2, st.displ_buffer⟩)
    | SourceObj.forceSource force_tpr lon colat =>
      match get_displacement Ex msh ei.id_elem ei.col_points_xi ei.col_points_eta
          ei.xi ei.eta st.displ_buffer with
      | Except.error e => Except.error e
      | Except.ok dres =>
        let force := computeForce Ex force_tpr lon colat receiver coordinates msh.amplitude
        Except.ok (⟨mu, forceSynthesize Ex coordinates.phi force components dres.1.1 dres.1.2⟩,
          ⟨st.strain_buffer, dres.2⟩)
    | SourceObj.other => Except.error InstaseisError.unsupportedSourceType

/-- Sequential effectful map modelling the Python for-loop of
`_get_data_multiple` (one result appended per iteration; a raise aborts
the whole call). -/
def mapME {α β : Type} (f : α → Except InstaseisError β) :
    List α → Except InstaseisError (List β)
  | [] => Except.ok []
  | a :: as =>
    match f a with
    | Except.error e => Except.error e
    | Except.ok b =>
      match mapME f as with
      | Except.error e => Except.error e
      | Except.ok bs => Except.ok (b :: bs)

/-- Model of `_get_data_multiple` (lines 226-401).  The dump type is
checked up front (lines 234-235); the elastic parameters, the strain
pipeline and the displacement pipeline run once; then the
rotation-plus-contraction step loops per source.  The loop bodies are
textually identical to the corresponding `_get_data` blocks and are
shared through `momentSynthesize` / `forceSynthesize`. -/
def get_data_multiple {nt nnod ncomp : ℕ} (Ex : Externals)
    (msh : MeshM nt nnod ncomp) (dump : DumpType) (sources : List SourceObj)
    (receiver : ReceiverDesc) (components : List Comp)
    (coordinates : Coordinates) (ei : ElementInfo nnod) (st : DBState nt nnod) :
    Except InstaseisError
      ((Params × List (Comp → Option (Fin nt → ℚ))) × DBState nt nnod) :=
  match dump with
  | DumpType.fullfields => Except.error InstaseisError.valueError
  | DumpType.strain_only => Except.error InstaseisError.valueError
  | DumpType.displ_only =>
    let cpt := ei.gll_point_ids (msh.npol / 2) (msh.npol / 2)
    let params : Params := ⟨msh.mesh_mu cpt, msh.mesh_rho cpt, msh.mesh_lambda cpt,
      msh.mesh_xi cpt, msh.mesh_phi cpt, msh.mesh_eta cpt⟩
    let gpair := select_G_GT msh ei.axis
    let sres := get_strain_interp Ex msh ei.id_elem gpair.1 gpair.2
      ei.col_points_xi ei.col_points_eta ei.corner_points ei.eltype ei.axis
      ei.xi ei.eta st.strain_buffer
    match get_displacement Ex msh ei.id_elem ei.col_points_xi ei.col_points_eta
        ei.xi ei.eta st.displ_buffer with
    | Except.error e => Except.error e
    | Except.ok dres =>
      match mapME (fun source =>
        match source with
        | SourceObj.source tensor_voigt lon colat =>
          let mij := computeMij Ex tensor_voigt lon colat receiver coordinates msh.amplitude
          momentSynthesize Ex coordinates.phi mij components sres.1.1 sres.1.2
        | SourceObj.forceSource force_tpr lon colat =>
          let force := computeForce Ex force_tpr lon colat receiver coordinates msh.amplitude
          Except.ok (forceSynthesize Ex coordinates.phi force components dres.1.1 dres.1.2)
        | SourceObj.other => Except.error InstaseisError.unsupportedSourceType) sources with
      | Except.error e => Except.error e
      | Except.ok data_all => Except.ok ((params, data_all), ⟨sres.2, dres.2⟩)

/-- Boolean success test for an `Except` result. -/
def isOkE {ε α : Type} : Except ε α → Bool
  | Except.ok _ => true
  | Except.error _ => false

/-- Extract the payload of a successful result, with a fallback for the
error case. -/
def okPart {ε α : Type} (d : α) : Except ε α → α
  | Except.ok a => a
  | Except.error _ => d

/-- Concrete externals used to evaluate the theorems on closed inputs:
identity-style rotations, simple trigonometric stand-ins, node-summing
interpolation, and derivative operators that read the channel data. -/
def cEx : Externals where
  cos := fun _ => 1
  sin := fun _ => 0
  deg2rad := fun x => x
  rotate_symm_tensor_voigt_xyz_src_to_xyz_earth := fun m _ _ => m
  rotate_symm_tensor_voigt_xyz_earth_to_xyz_src := fun m _ _ => m
  rotate_symm_tensor_voigt_xyz_to_src := fun m _ => m
  rotate_vector_xyz_src_to_xyz_earth := fun v _ _ => v
  rotate_vector_xyz_earth_to_xyz_src := fun v _ _ => v
  rotate_vector_xyz_to_src := fun v _ => v
  strain_monopole_td := fun u _ _ _ _ _ _ _ _ _ => fun t j i k => u t j i 2 * ((k.val : ℚ) + 1)
  strain_dipole_td := fun u _ _ _ _ _ _ _ _ _ => fun t j i k => u t j i 0 + (k.val : ℚ)
  strain_quadpole_td := fun u _ _ _ _ _ _ _ _ _ => fun t j i k => u t j i 1 - (k.val : ℚ)
  lagrange_interpol_2D_td := fun _ _ f _ _ => fun t => ∑ j, ∑ i, f t j i

/-- Concrete 5-component mesh with one node and one time sample. -/
def cmsh5 : MeshM 1 1 5 where
  amplitude := 1
  mesh_mu := fun n => (n : ℚ) + 7
  mesh_rho := fun n => (n : ℚ) + 11
  mesh_lambda := fun n => (n : ℚ) + 13
  mesh_xi := fun n => (n : ℚ) + 17
  mesh_phi := fun n => (n : ℚ) + 19
  mesh_eta := fun n => (n : ℚ) + 23
  G1T := fun _ _ => 2
  G2 := fun _ _ => 3
  G2T := fun _ _ => 5
  npol := 0
  merged_snapshots := fun id v _ _ _ => (id : ℚ) + (v.val : ℚ) + 1

/-- Concrete single-component mesh (a dump configuration outside the
supported component counts for either field group). -/
def cmsh1 : MeshM 1 1 1 where
  amplitude := 1
  mesh_mu := fun n => (n : ℚ) + 7
  mesh_rho := fun n => (n : ℚ) + 11
  mesh_lambda := fun n => (n : ℚ) + 13
  mesh_xi := fun n => (n : ℚ) + 17
  mesh_phi := fun n => (n : ℚ) + 19
  mesh_eta := fun n => (n : ℚ) + 23
  G1T := fun _ _ => 2
  G2 := fun _ _ => 3
  G2T := fun _ _ => 5
  npol := 0
  merged_snapshots := fun _ _ _ _ _ => 4

/-- Empty strain buffer with a large byte budget. -/
def cbuf0 : Buffer (StrainPair 1 1) := ⟨fun _ => 1, 1000000, []⟩

/-- Empty displacement buffer with a large byte budget. -/
def cdbuf0 : Buffer (DisplPair 1 1) := ⟨fun _ => 1, 1000000, []⟩

/-- Fresh database state. -/
def cst0 : DBState 1 1 := ⟨cbuf0, cdbuf0⟩

/-- Concrete receiver at the reference position. -/
def crecv : ReceiverDesc := ⟨0, 0⟩

/-- Concrete azimuth. -/
def ccoords : Coordinates := ⟨0⟩

/-- Concrete element info for element 5. -/
def cei : ElementInfo 1 := ⟨5, fun _ _ => 3, fun _ => 0, fun _ => 0, fun _ _ => 0, 0, false, 0, 0⟩

/-- Concrete Voigt moment tensor. -/
def ctv : Fin 6 → ℚ := fun k => (k.val : ℚ) + 1

/-- Concrete force vector. -/
def cftpr : Fin 3 → ℚ := fun k => (k.val : ℚ) + 1

/-- All five output components. -/
def ccompsAll : List Comp := [Comp.Z, Comp.R, Comp.T, Comp.N, Comp.E]

/-- The strain pipeline run of the concrete moment-tensor query. -/
def cstrain :
    (Option (StrainVec 1) × Option (StrainVec 1)) × Buffer (StrainPair 1 1) :=
  get_strain_interp cEx cmsh5 cei.id_elem (select_G_GT cmsh5 cei.axis).1
    (select_G_GT cmsh5 cei.axis).2 cei.col_points_xi cei.col_points_eta
    cei.corner_points cei.eltype cei.axis cei.xi cei.eta cst0.strain_buffer

/-- Interpolated horizontal strain of the concrete run. -/
def csx : StrainVec 1 := cstrain.1.1.getD (fun _ _ => 0)

/-- Interpolated vertical strain of the concrete run. -/
def csz : StrainVec 1 := cstrain.1.2.getD (fun _ _ => 0)

/-- Rotated, normalized concrete moment tensor. -/
def cmij : Fin 6 → ℚ := computeMij cEx ctv 0 0 crecv ccoords cmsh5.amplitude

/-- The displacement pipeline run of the concrete force query. -/
def cdispl :
    Except InstaseisError ((DisplVec 1 × DisplVec 1) × Buffer (DisplPair 1 1)) :=
  get_displacement cEx cmsh5 cei.id_elem cei.col_points_xi cei.col_points_eta
    cei.xi cei.eta cst0.displ_buffer

/-- Interpolated horizontal displacement of the concrete run. -/
def cdx : DisplVec 1 :=
  (okPart ((fun _ _ => 0, fun _ _ => 0), cdbuf0) cdispl).1.1

/-- Interpolated vertical displacement of the concrete run. -/
def cdz : DisplVec 1 :=
  (okPart ((fun _ _ => 0, fun _ _ => 0), cdbuf0) cdispl).1.2

/-- Displacement buffer state after the concrete run. -/
def cdbuf1 : Buffer (DisplPair 1 1) :=
  (okPart ((fun _ _ => 0, fun _ _ => 0), cdbuf0) cdispl).2

/-- Rotated, normalized concrete force vector. -/
def cforcev : Fin 3 → ℚ := computeForce cEx cftpr 0 0 crecv ccoords cmsh5.amplitude

/-- Concrete pre-interpolation horizontal strain field. -/
def cSxF : StrainField 1 1 := fun _ _ _ k => (k.val : ℚ) + 1

/-- Concrete pre-interpolation vertical strain field. -/
def cSzF : StrainField 1 1 := fun _ _ _ k => (k.val : ℚ) + 2

/-- Buffer already holding a strain pair for element 5. -/
def cbufStored : Buffer (StrainPair 1 1) :=
  ⟨fun _ => 1, 1000000, [(5, (some cSxF, some cSzF))]⟩

/-- Concrete 2-channel decoded block. -/
def cutemp2 : Field4 1 1 2 := fun _ _ _ v => (v.val : ℚ) + 9

/-- Concrete batch of two co-located sources. -/
def csources : List SourceObj :=
  [SourceObj.source ctv 0 0, SourceObj.forceSource cftpr 0 0]

/-- The concrete batch run. -/
def cbatch :
    Except InstaseisError
      ((Params × List (Comp → Option (Fin 1 → ℚ))) × DBState 1 1) :=
  get_data_multiple cEx cmsh5 DumpType.displ_only csources crecv ccompsAll
    ccoords cei cst0

/-- Payload of the concrete batch run. -/
def cbatchOk : (Params × List (Comp → Option (Fin 1 → ℚ))) × DBState 1 1 :=
  okPart ((⟨0, 0, 0, 0, 0, 0⟩, []), cst0) cbatch

/-- Elastic parameters of the concrete batch run. -/
def cparams : Params := cbatchOk.1.1

/-- Per-source outputs of the concrete batch run. -/
def couts : List (Comp → Option (Fin 1 → ℚ)) := cbatchOk.1.2

/-- Database state after the concrete batch run. -/
def cstB : DBState 1 1 := cbatchOk.2

/-- The concrete force query run. -/
def cforce_run : Except InstaseisError (DataDict 1 × DBState 1 1) :=
  get_data cEx cmsh5 DumpType.displ_only (SourceObj.forceSource cftpr 0 0)
    crecv [Comp.T] ccoords cei cst0

/-- Result dictionary of the concrete force query. -/
def cforce_d : DataDict 1 := (okPart (⟨0, fun _ => none⟩, cst0) cforce_run).1

/-- Database state after the concrete force query. -/
def cforce_st : DBState 1 1 := (okPart (⟨0, fun _ => none⟩, cst0) cforce_run).2

/-- Eviction only removes entries from the least-recently-used end, so
the trimmed list is always a front segment of the input. -/
theorem trimFuel_take {V : Type} (vbytes : V → ℕ) (maxBytes : ℕ) :
    ∀ (fuel : ℕ) (es : List (ℕ × V)),
      ∃ k, trimFuel vbytes maxBytes fuel es = es.take k := by
  intro fuel
  induction fuel with
  | zero =>
    intro es
    exact ⟨es.length, by simp [trimFuel]⟩
  | succ fuel ih =>
    intro es
    simp only [trimFuel]
    split
    · exact ⟨es.length, (List.take_length es).symm⟩
    · obtain ⟨k, hk⟩ := ih es.dropLast
      refine ⟨min k (es.length - 1), ?_⟩
      rw [hk, List.dropLast_eq_take, List.take_take]

/-- The eviction pass keeps a front segment of the fresh entry list. -/
theorem trimLRU_take {V : Type} (vbytes : V → ℕ) (maxBytes : ℕ)
    (es : List (ℕ × V)) : ∃ k, trimLRU vbytes maxBytes es = es.take k :=
  trimFuel_take vbytes maxBytes es.length es

/-- If the entry just added survived eviction, a lookup returns exactly
the added value. -/
theorem Buffer.get_add_self {V : Type} (b : Buffer V) (id : ℕ) (v : V)
    (h : (b.add id v).contains id = true) :
    ∃ b', (b.add id v).get id = some (v, b') := by
  obtain ⟨k, hk⟩ := trimLRU_take b.vbytes b.maxBytes
    ((id, v) :: b.entries.filter (fun e => ¬ (e.1 == id)))
  cases k with
  | zero =>
    exfalso
    unfold Buffer.add Buffer.contains at h
    rw [hk] at h
    simp at h
  | succ k =>
    unfold Buffer.add Buffer.get
    rw [hk, List.take_succ_cons, List.find?_cons_of_pos _ (by simp)]
    exact ⟨_, rfl⟩

/-- Success of the modelled batch loop yields a per-index success of the
loop body, with matching output positions. -/
theorem mapME_ok {α β : Type} {f : α → Except InstaseisError β} :
    ∀ {L : List α} {outs : List β}, mapME f L = Except.ok outs →
      outs.length = L.length ∧
        ∀ i (hi : i < L.length),
          ∃ y, f (L.get ⟨i, hi⟩) = Except.ok y ∧ outs.get? i = some y := by
  intro L
  induction L with
  | nil =>
    intro outs h
    unfold mapME at h
    simp only [Except.ok.injEq] at h
    subst h
    exact ⟨rfl, fun i hi => absurd hi (by simp)⟩
  | cons a as ih =>
    intro outs h
    unfold mapME at h
    cases hfa : f a with
    | error e => rw [hfa] at h; simp at h
    | ok b =>
      rw [hfa] at h
      cases hm : mapME f as with
      | error e => rw [hm] at h; simp at h
      | ok bs =>
        rw [hm] at h
        simp only [Except.ok.injEq] at h
        subst h
        obtain ⟨hlen, hg⟩ := ih hm
        refine ⟨by simp [hlen], ?_⟩
        intro i hi
        cases i with
        | zero => exact ⟨b, hfa, rfl⟩
        | succ m =>
          obtain ⟨y, h1, h2⟩ := hg m (by simpa using hi)
          exact ⟨y, h1, h2⟩

/-- Success of the modelled batch loop requires every element of the
source list to be accepted by the loop body. -/
theorem mapME_ok_forall_mem {α β : Type} {f : α → Except InstaseisError β} :
    ∀ {L : List α} {outs : List β}, mapME f L = Except.ok outs →
      ∀ a ∈ L, ∃ y, f a = Except.ok y := by
  intro L
  induction L with
  | nil => intro outs _ a ha; simp at ha
  | cons x xs ih =>
    intro outs h a ha
    unfold mapME at h
    cases hfx : f x with
    | error e => rw [hfx] at h; simp at h
    | ok b =>
      rw [hfx] at h
      cases hm : mapME f xs with
      | error e => rw [hm] at h; simp at h
      | ok bs =>
        rcases List.mem_cons.mp ha with rfl | ha'
        · exact ⟨b, hfx⟩
        · exact ih hm a ha'

/-- A positional lookup that is known to succeed agrees with the
defaulted lookup. -/
theorem getD_of_get? {α : Type} {l : List α} {n : ℕ} {y : α} (d : α)
    (h : l.get? n = some y) : l.getD n d = y := by
  simp [List.getD, ← List.get?_eq_getElem?, h]

/-- A successful moment-tensor contraction holds a series for exactly
the requested components. -/
theorem momentSynthesize_ok_isSome {nt : ℕ} {Ex : Externals} {phi : ℚ}
    {mij : Fin 6 → ℚ} {components : List Comp}
    {sxo szo : Option (StrainVec nt)} {series : Comp → Option (Fin nt → ℚ)}
    (h : momentSynthesize Ex phi mij components sxo szo = Except.ok series) :
    ∀ c, ((series c).isSome = true ↔ c ∈ components) := by
  unfold momentSynthesize at h
  simp only [] at h
  split at h
  next e heqZ => simp at h
  next dZv heqZ =>
  split at h
  next e heqR => simp at h
  next dRv heqR =>
  split at h
  next e heqT => simp at h
  next dTv heqT =>
  split at h
  next e heqE => simp at h
  next dEv heqE =>
  split at h
  next e heqN => simp at h
  next dNv heqN =>
  simp only [Except.ok.injEq] at h
  subst h
  have hZ : dZv.isSome = true ↔ Comp.Z ∈ components := by
    by_cases hm : Comp.Z ∈ components
    · rw [if_pos hm] at heqZ
      cases szo with
      | none => simp at heqZ
      | some s =>
        simp only [Except.ok.injEq] at heqZ
        rw [← heqZ]
        simp [hm]
    · rw [if_neg hm] at heqZ
      simp only [Except.ok.injEq] at heqZ
      rw [← heqZ]
      simp [hm]
  have hR : dRv.isSome = true ↔ Comp.R ∈ components := by
    by_cases hm : Comp.R ∈ components
    · rw [if_pos hm] at heqR
      cases sxo with
      | none => simp at heqR
      | some s =>
        simp only [Except.ok.injEq] at heqR
        rw [← heqR]
        simp [hm]
    · rw [if_neg hm] at heqR
      simp only [Except.ok.injEq] at heqR
      rw [← heqR]
      simp [hm]
  have hT : dTv.isSome = true ↔ Comp.T ∈ components := by
    by_cases hm : Comp.T ∈ components
    · rw [if_pos hm] at heqT
      cases sxo with
      | none => simp at heqT
      | some s =>
        simp only [Except.ok.injEq] at heqT
        rw [← heqT]
        simp [hm]
    · rw [if_neg hm] at heqT
      simp only [Except.ok.injEq] at heqT
      rw [← heqT]
      simp [hm]
  have hE : dEv.isSome = true ↔ Comp.E ∈ components := by
    by_cases hm : Comp.E ∈ components
    · rw [if_pos hm] at heqE
      cases sxo with
      | none => simp at heqE
      | some s =>
        simp only [Except.ok.injEq] at heqE
        rw [← heqE]
        simp [hm]
    · rw [if_neg hm] at heqE
      simp only [Except.ok.injEq] at heqE
      rw [← heqE]
      simp [hm]
  have hN : dNv.isSome = true ↔ Comp.N ∈ components := by
    by_cases hm : Comp.N ∈ components
    · rw [if_pos hm] at heqN
      cases sxo with
      | none => simp at heqN
      | some s =>
        simp only [Except.ok.injEq] at heqN
        rw [← heqN]
        simp [hm]
    · rw [if_neg hm] at heqN
      simp only [Except.ok.injEq] at heqN
      rw [← heqN]
      simp [hm]
  intro c
  cases c
  · exact hZ
  · exact hR
  · exact hT
  · exact hN
  · exact hE

/-- The force contraction holds a series for exactly the requested
components. -/
theorem forceSynthesize_isSome {nt : ℕ} (Ex : Externals) (phi : ℚ)
    (force : Fin 3 → ℚ) (components : List Comp) (dx dz : DisplVec nt) :
    ∀ c, ((forceSynthesize Ex phi force components dx dz c).isSome = true ↔
      c ∈ components) := by
  intro c
  cases c <;> simp only [forceSynthesize] <;> split <;> simp_all

/-- With both strain groups present, the moment-tensor contraction
succeeds and the per-component series are the spec's Voigt contraction
formulas. -/
theorem momentSynthesize_some {nt : ℕ} (Ex : Externals) (phi : ℚ)
    (mij : Fin 6 → ℚ) (components : List Comp) (sx sz : StrainVec nt) :
    momentSynthesize Ex phi mij components (some sx) (some sz) =
      Except.ok (fun c =>
        match c with
        | Comp.Z =>
          if Comp.Z ∈ components then
            some (fun t => mij 0 * sz t 0 + mij 1 * sz t 1 + mij 2 * sz t 2
              + 2 * mij 4 * sz t 4)
          else none
        | Comp.R =>
          if Comp.R ∈ components then
            some (fun t => -(sx t 0 * mij 0 + sx t 1 * mij 1 + sx t 2 * mij 2
              + 2 * sx t 4 * mij 4))
          else none
        | Comp.T =>
          if Comp.T ∈ components then
            some (fun t => 2 * (sx t 3 * mij 3 + sx t 5 * mij 5))
          else none
        | Comp.N =>
          if Comp.N ∈ components then
            some (fun t => -1 * (sx t 0 * mij 0 * Ex.cos phi
              + sx t 1 * mij 1 * Ex.cos phi + sx t 2 * mij 2 * Ex.cos phi
              + 2 * sx t 3 * mij 3 * (- Ex.sin phi)
              + 2 * sx t 4 * mij 4 * Ex.cos phi
              + 2 * sx t 5 * mij 5 * (- Ex.sin phi)))
          else none
        | Comp.E =>
          if Comp.E ∈ components then
            some (fun t => sx t 0 * mij 0 * Ex.sin phi
              + sx t 1 * mij 1 * Ex.sin phi + sx t 2 * mij 2 * Ex.sin phi
              + 2 * sx t 3 * mij 3 * Ex.cos phi
              + 2 * sx t 4 * mij 4 * Ex.sin phi
              + 2 * sx t 5 * mij 5 * Ex.cos phi)
          else none) := by
  unfold momentSynthesize
  simp only []
  rw [← apply_ite (Except.ok (ε := InstaseisError)),
    ← apply_ite (Except.ok (ε := InstaseisError)),
    ← apply_ite (Except.ok (ε := InstaseisError)),
    ← apply_ite (Except.ok (ε := InstaseisError)),
    ← apply_ite (Except.ok (ε := InstaseisError))]
  simp only []
  congr 1
  funext c
  cases c
  · by_cases hm : Comp.Z ∈ components
    · simp only [hm, if_true]
      congr 1
      funext t
      ring
    · simp [hm]
  · by_cases hm : Comp.R ∈ components
    · simp only [hm, if_true]
      congr 1
      funext t
      ring
    · simp [hm]
  · by_cases hm : Comp.T ∈ components
    · simp only [hm, if_true]
      congr 1
      funext t
      ring
    · simp [hm]
  · by_cases hm : Comp.N ∈ components
    · simp only [hm, if_true, eq_self_iff_true, fac_1_map, fac_2_map]
      congr 1
      funext t
      ring
    · simp [hm]
  · by_cases hm : Comp.E ∈ components
    · simp only [hm, if_true, eq_false (by decide : ¬ (Comp.E = Comp.N)), if_false,
        fac_1_map, fac_2_map]
      congr 1
      funext t
      ring
    · simp [hm]

/-- The force contraction equals the spec's per-component formulas. -/
theorem forceSynthesize_eq {nt : ℕ} (Ex : Externals) (phi : ℚ)
    (force : Fin 3 → ℚ) (components : List Comp) (dx dz : DisplVec nt) :
    forceSynthesize Ex phi force components dx dz =
      (fun c =>
        match c with
        | Comp.Z =>
          if Comp.Z ∈ components then
            some (fun t => dz t 0 * force 0 + dz t 2 * force 2)
          else none
        | Comp.R =>
          if Comp.R ∈ components then
            some (fun t => dx t 0 * force 0 + dx t 2 * force 2)
          else none
        | Comp.T =>
          if Comp.T ∈ components then
            some (fun t => dx t 1 * force 1)
          else none
        | Comp.N =>
          if Comp.N ∈ components then
            some (fun t => -1 * (dx t 0 * force 0 * Ex.cos phi
              + dx t 1 * force 1 * (- Ex.sin phi)
              + dx t 2 * force 2 * Ex.cos phi))
          else none
        | Comp.E =>
          if Comp.E ∈ components then
            some (fun t => dx t 0 * force 0 * Ex.sin phi
              + dx t 1 * force 1 * Ex.cos phi
              + dx t 2 * force 2 * Ex.sin phi)
          else none) := by
  unfold forceSynthesize
  simp only []
  funext c
  cases c
  · by_cases hm : Comp.Z ∈ components
    · simp only [hm, if_true]
      congr 1
      funext t
      ring
    · simp [hm]
  · by_cases hm : Comp.R ∈ components
    · simp only [hm, if_true]
      congr 1
      funext t
      ring
    · simp [hm]
  · by_cases hm : Comp.T ∈ components
    · simp only [hm, if_true]
      congr 1
      funext t
      ring
    · simp [hm]
  · by_cases hm : Comp.N ∈ components
    · simp only [hm, if_true, eq_self_iff_true, fac_1_map, fac_2_map]
      congr 1
      funext t
      ring
    · simp [hm]
  · by_cases hm : Comp.E ∈ components
    · simp only [hm, if_true, eq_false (by decide : ¬ (Comp.E = Comp.N)), if_false,
        fac_1_map, fac_2_map]
      congr 1
      funext t
      ring
    · simp [hm]

/-- Requesting Z with a missing vertical strain group makes the
moment-tensor contraction fail with the NoneType error. -/
theorem momentSynthesize_none_z {nt : ℕ} (Ex : Externals) (phi : ℚ)
    (mij : Fin 6 → ℚ) (components : List Comp)
    (sxo : Option (StrainVec nt)) (hz : Comp.Z ∈ components) :
    momentSynthesize Ex phi mij components sxo none =
      Except.error InstaseisError.noneTypeError := by
  unfold momentSynthesize
  simp only []
  rw [if_pos hz]

/-- C10: for displ_only moment-tensor queries the primary derivative
operator passed to the strain computation is always the mesh's `G2`
matrix, regardless of whether the element lies on the polar axis; only
the transpose operator depends on the axis flag (`G1T` for axial
elements, `G2T` for non-axial elements).  Both `_get_data` and
`_get_data_multiple` perform this selection through `select_G_GT`. -/
theorem c10 {nt nnod ncomp : ℕ} (msh : MeshM nt nnod ncomp) (axis : Bool) :
    (select_G_GT msh axis).1 = msh.G2 ∧
      (select_G_GT msh axis).2 = (if axis then msh.G1T else msh.G2T) := by
  cases axis <;> simp [select_G_GT]

/-- C4: the decoded vertical group is a 3-channel array whose channel 1
is identically zero; for a 2-component block channel 0 holds source
channel 0 and channel 2 holds source channel 1; for a 5-component block
(vertical group built from the last 3 source channels) channel 0 is
overwritten with source channel 3 — channel 1 of the last-3 slice — and
channel 2 holds source channel 4. -/
theorem c4 {nt nnod ncomp : ℕ} (utemp : Field4 nt nnod ncomp)
    (h25 : ncomp = 2 ∨ ncomp = 5) :
    (∀ t j i, build_utemp_z h25 utemp t j i 1 = 0) ∧
      (∀ h2 : ncomp = 2, ∀ t j i,
        build_utemp_z h25 utemp t j i 0 = utemp t j i ⟨0, by omega⟩ ∧
        build_utemp_z h25 utemp t j i 2 = utemp t j i ⟨1, by omega⟩) ∧
      (∀ h5 : ncomp = 5, ∀ t j i,
        build_utemp_z h25 utemp t j i 0 = utemp t j i ⟨3, by omega⟩ ∧
        build_utemp_z h25 utemp t j i 2 = utemp t j i ⟨4, by omega⟩) := by
  refine ⟨?_, ?_, ?_⟩
  · intro t j i
    unfold build_utemp_z
    split <;> rfl
  · intro h2 t j i
    unfold build_utemp_z
    rw [dif_pos h2]
    exact ⟨rfl, rfl⟩
  · intro h5 t j i
    subst h5
    unfold build_utemp_z
    rw [dif_neg (by omega)]
    exact ⟨rfl, rfl⟩

/-- C4 witness: the decode invariants at a concrete 2-channel block. -/
theorem c4_witness :
    (build_utemp_z (Or.inl rfl) cutemp2 0 0 0 1 = 0) ∧
      (build_utemp_z (Or.inl rfl) cutemp2 0 0 0 0 = cutemp2 0 0 0 ⟨0, by omega⟩) ∧
      (build_utemp_z (Or.inl rfl) cutemp2 0 0 0 2 = cutemp2 0 0 0 ⟨1, by omega⟩) :=
  ⟨(c4 cutemp2 (Or.inl rfl)).1 0 0 0,
   ((c4 cutemp2 (Or.inl rfl)).2.1 rfl 0 0 0).1,
   ((c4 cutemp2 (Or.inl rfl)).2.1 rfl 0 0 0).2⟩

/-- C5: after the 2-D Lagrange interpolation step the horizontal ("x")
group's Voigt components at positions 3 and 5 are negated, while the
vertical ("z") group's interpolated strain is returned without the sign
flip (stated on the cache-hit path, the flip being applied outside the
cache in both paths). -/
theorem c5 {nt nnod ncomp : ℕ} (Ex : Externals) (msh : MeshM nt nnod ncomp)
    (id_elem : ℕ) (G GT : Fin nnod → Fin nnod → ℚ)
    (col_points_xi col_points_eta : Fin nnod → ℚ)
    (corner_points : Fin 4 → Fin 2 → ℚ) (eltype : ℕ) (axis : Bool) (xi eta : ℚ)
    (buf : Buffer (StrainPair nt nnod)) (Sx Sz : StrainField nt nnod)
    (b' : Buffer (StrainPair nt nnod))
    (hc : buf.contains id_elem = true)
    (hget : buf.get id_elem = some ((some Sx, some Sz), b')) :
    (get_strain_interp Ex msh id_elem G GT col_points_xi col_points_eta
        corner_points eltype axis xi eta buf).1 =
      (some (fun t i => if i = 3 ∨ i = 5 then
          -(Ex.lagrange_interpol_2D_td col_points_xi col_points_eta
              (fun t j k => Sx t j k i) xi eta t)
        else
          Ex.lagrange_interpol_2D_td col_points_xi col_points_eta
            (fun t j k => Sx t j k i) xi eta t),
       some (fun t i =>
         Ex.lagrange_interpol_2D_td col_points_xi col_points_eta
           (fun t j k => Sz t j k i) xi eta t)) := by
  unfold get_strain_interp
  simp only [hc]
  rw [if_neg (by simp), hget]
  simp only [finalize_strain]
  refine Prod.ext ?_ ?_
  · show some _ = some _
    congr 1
    rw [if_neg (by simp)]
    funext t i
    by_cases h35 : i = 3 ∨ i = 5
    · rw [if_pos h35, if_pos h35]
      ring
    · rw [if_neg h35, if_neg h35]
  · show some _ = some _
    congr 1

/-- C5 witness: the sign-flip pattern at a concrete buffered element. -/
theorem c5_witness :
    (get_strain_interp cEx cmsh5 5 (fun _ _ => 0) (fun _ _ => 0) (fun _ => 0)
        (fun _ => 0) (fun _ _ => 0) 0 false 0 0 cbufStored).1 =
      (some (fun t i => if i = 3 ∨ i = 5 then
          -(cEx.lagrange_interpol_2D_td (fun _ => 0) (fun _ => 0)
              (fun t j k => cSxF t j k i) 0 0 t)
        else
          cEx.lagrange_interpol_2D_td (fun _ => 0) (fun _ => 0)
            (fun t j k => cSxF t j k i) 0 0 t),
       some (fun t i =>
         cEx.lagrange_interpol_2D_td (fun _ => 0) (fun _ => 0)
           (fun t j k => cSzF t j k i) 0 0 t)) :=
  c5 cEx cmsh5 5 (fun _ _ => 0) (fun _ _ => 0) (fun _ => 0) (fun _ => 0)
    (fun _ _ => 0) 0 false 0 0 cbufStored cSxF cSzF cbufStored rfl rfl

/-- C6: two consecutive strain-pipeline calls for the same element and
the same target coordinate return identical interpolated strain pairs:
the first call takes the miss path (decode, derivative, add to buffer)
and the second call, taking the hit path (get from buffer,
re-interpolate), reproduces exactly the first call's output. -/
theorem c6 {nt nnod ncomp : ℕ} (Ex : Externals) (msh : MeshM nt nnod ncomp)
    (id_elem : ℕ) (G GT : Fin nnod → Fin nnod → ℚ)
    (col_points_xi col_points_eta : Fin nnod → ℚ)
    (corner_points : Fin 4 → Fin 2 → ℚ) (eltype : ℕ) (axis : Bool) (xi eta : ℚ)
    (buf : Buffer (StrainPair nt nnod))
    (r₁ : Option (StrainVec nt) × Option (StrainVec nt))
    (buf₁ : Buffer (StrainPair nt nnod))
    (hmiss : buf.contains id_elem = false)
    (h1 : get_strain_interp Ex msh id_elem G GT col_points_xi col_points_eta
      corner_points eltype axis xi eta buf = (r₁, buf₁))
    (hhit : buf₁.contains id_elem = true) :
    (get_strain_interp Ex msh id_elem G GT col_points_xi col_points_eta
      corner_points eltype axis xi eta buf₁).1 = r₁ := by
  unfold get_strain_interp at h1 ⊢
  simp only [hmiss, ite_true] at h1
  rw [Prod.mk.injEq] at h1
  obtain ⟨hr, hb⟩ := h1
  subst hr
  subst hb
  simp only [hhit]
  rw [if_neg (show ¬ (true = false) by simp)]
  obtain ⟨b', hg⟩ := Buffer.get_add_self buf id_elem _ hhit
  rw [hg]

/-- C6 witness: the concrete first (miss) and second (hit) runs agree. -/
theorem c6_witness :
    (get_strain_interp cEx cmsh5 cei.id_elem (select_G_GT cmsh5 cei.axis).1
      (select_G_GT cmsh5 cei.axis).2 cei.col_points_xi cei.col_points_eta
      cei.corner_points cei.eltype cei.axis cei.xi cei.eta cstrain.2).1 =
      cstrain.1 :=
  c6 cEx cmsh5 cei.id_elem (select_G_GT cmsh5 cei.axis).1
    (select_G_GT cmsh5 cei.axis).2 cei.col_points_xi cei.col_points_eta
    cei.corner_points cei.eltype cei.axis cei.xi cei.eta cst0.strain_buffer
    cstrain.1 cstrain.2 rfl rfl (by decide)

/-- C3 counterexample: at a concrete query whose snapshot block has one
component (outside {2, 3, 5}) in a mode that requires the vertical field
group (a moment-tensor query asking for Z), the strain pipeline returns
normally with both field groups absent instead of signalling an error,
and the query then fails with the NoneType error of the contraction
step — not with the UnsupportedDumpConfiguration error the claim
names. -/
theorem c3_counterexample :
    (get_strain_interp cEx cmsh1 cei.id_elem (select_G_GT cmsh1 cei.axis).1
        (select_G_GT cmsh1 cei.axis).2 cei.col_points_xi cei.col_points_eta
        cei.corner_points cei.eltype cei.axis cei.xi cei.eta
        cst0.strain_buffer).1 = (none, none) ∧
      get_data cEx cmsh1 DumpType.displ_only (SourceObj.source ctv 0 0) crecv
          [Comp.Z] ccoords cei cst0 =
        Except.error InstaseisError.noneTypeError ∧
      InstaseisError.noneTypeError ≠ InstaseisError.unsupportedDumpConfiguration :=
  ⟨rfl, rfl, by decide⟩

/-- C3 amended: for a snapshot block whose component count is outside
{2, 3, 5} the strain pipeline raises nothing; on a cache miss it returns
`None` in place of the vertical group (and also of the horizontal group
when fewer than three components are stored), and a query that requires
the missing vertical group then fails with the NoneType error raised by
the contraction step, so no degraded numeric output is returned for that
query. -/
theorem c3_amended {nt nnod ncomp : ℕ} (Ex : Externals)
    (msh : MeshM nt nnod ncomp) (tensor_voigt : Fin 6 → ℚ) (lon colat : ℚ)
    (receiver : ReceiverDesc) (components : List Comp)
    (coordinates : Coordinates) (ei : ElementInfo nnod) (st : DBState nt nnod)
    (hn : ¬ (ncomp = 2 ∨ ncomp = 3 ∨ ncomp = 5))
    (hmiss : st.strain_buffer.contains ei.id_elem = false) :
    (get_strain_interp Ex msh ei.id_elem (select_G_GT msh ei.axis).1
        (select_G_GT msh ei.axis).2 ei.col_points_xi ei.col_points_eta
        ei.corner_points ei.eltype ei.axis ei.xi ei.eta
        st.strain_buffer).1.2 = none ∧
      (ncomp < 3 →
        (get_strain_interp Ex msh ei.id_elem (select_G_GT msh ei.axis).1
          (select_G_GT msh ei.axis).2 ei.col_points_xi ei.col_points_eta
          ei.corner_points ei.eltype ei.axis ei.xi ei.eta
          st.strain_buffer).1.1 = none) ∧
      (Comp.Z ∈ components →
        get_data Ex msh DumpType.displ_only
            (SourceObj.source tensor_voigt lon colat) receiver components
            coordinates ei st =
          Except.error InstaseisError.noneTypeError) := by
  have hz :
      (get_strain_interp Ex msh ei.id_elem (select_G_GT msh ei.axis).1
        (select_G_GT msh ei.axis).2 ei.col_points_xi ei.col_points_eta
        ei.corner_points ei.eltype ei.axis ei.xi ei.eta
        st.strain_buffer).1.2 = none := by
    unfold get_strain_interp
    simp only [hmiss, ite_true]
    rw [dif_neg (by tauto)]
    rfl
  refine ⟨hz, ?_, ?_⟩
  · intro h3
    unfold get_strain_interp
    simp only [hmiss, ite_true]
    rw [dif_neg (by omega)]
    rfl
  · intro hzc
    unfold get_data
    simp only []
    rw [hz, momentSynthesize_none_z _ _ _ _ _ hzc]

/-- C3 amended witness: the concrete single-component query. -/
theorem c3_amended_witness :
    (get_strain_interp cEx cmsh1 cei.id_elem (select_G_GT cmsh1 cei.axis).1
        (select_G_GT cmsh1 cei.axis).2 cei.col_points_xi cei.col_points_eta
        cei.corner_points cei.eltype cei.axis cei.xi cei.eta
        cst0.strain_buffer).1.2 = none ∧
      get_data cEx cmsh1 DumpType.displ_only (SourceObj.source ctv 0 0) crecv
          [Comp.Z] ccoords cei cst0 =
        Except.error InstaseisError.noneTypeError :=
  ⟨(c3_amended cEx cmsh1 ctv 0 0 crecv [Comp.Z] ccoords cei cst0 (by decide)
      rfl).1,
   (c3_amended cEx cmsh1 ctv 0 0 crecv [Comp.Z] ccoords cei cst0 (by decide)
      rfl).2.2 (by simp)⟩

/-- C8: a source object that is neither a moment-tensor source nor a
force source makes the single-source path fail with the
unsupported-source error (the spec's UnsupportedSourceType) and no
component data is returned; a batch containing such an entry never
returns a data list, and when the offending entry is the first one
processed the batch fails with the unsupported-source error itself. -/
theorem c8 {nt nnod ncomp : ℕ} (Ex : Externals) (msh : MeshM nt nnod ncomp)
    (receiver : ReceiverDesc) (components : List Comp)
    (coordinates : Coordinates) (ei : ElementInfo nnod) (st : DBState nt nnod) :
    get_data Ex msh DumpType.displ_only SourceObj.other receiver components
        coordinates ei st = Except.error InstaseisError.unsupportedSourceType ∧
      (∀ sources : List SourceObj, SourceObj.other ∈ sources →
        isOkE (get_data_multiple Ex msh DumpType.displ_only sources receiver
          components coordinates ei st) = false) ∧
      (∀ (dres : (DisplVec nt × DisplVec nt) × Buffer (DisplPair nt nnod))
        (rest : List SourceObj),
        get_displacement Ex msh ei.id_elem ei.col_points_xi ei.col_points_eta
            ei.xi ei.eta st.displ_buffer = Except.ok dres →
        get_data_multiple Ex msh DumpType.displ_only (SourceObj.other :: rest)
            receiver components coordinates ei st =
          Except.error InstaseisError.unsupportedSourceType) := by
  refine ⟨rfl, ?_, ?_⟩
  · intro sources hmem
    unfold get_data_multiple
    cases hd : get_displacement Ex msh ei.id_elem ei.col_points_xi
        ei.col_points_eta ei.xi ei.eta st.displ_buffer with
    | error e => rfl
    | ok dres =>
      simp only []
      split
      · rfl
      · next data_all hm =>
        obtain ⟨y, hy⟩ := mapME_ok_forall_mem hm SourceObj.other hmem
        simp at hy
  · intro dres rest hd
    unfold get_data_multiple
    rw [hd]
    rfl

/-- C8 witness: the concrete rejections. -/
theorem c8_witness :
    get_data cEx cmsh5 DumpType.displ_only SourceObj.other crecv ccompsAll
        ccoords cei cst0 = Except.error InstaseisError.unsupportedSourceType ∧
      isOkE (get_data_multiple cEx cmsh5 DumpType.displ_only
        [SourceObj.source ctv 0 0, SourceObj.other] crecv ccompsAll ccoords
        cei cst0) = false ∧
      get_data_multiple cEx cmsh5 DumpType.displ_only [SourceObj.other] crecv
          ccompsAll ccoords cei cst0 =
        Except.error InstaseisError.unsupportedSourceType :=
  ⟨(c8 cEx cmsh5 crecv ccompsAll ccoords cei cst0).1,
   (c8 cEx cmsh5 crecv ccompsAll ccoords cei cst0).2.1 _ (by simp),
   (c8 cEx cmsh5 crecv ccompsAll ccoords cei cst0).2.2 _ [] rfl⟩

/-- C9: every successful single-source query in displ_only mode returns
the element's shear modulus sampled at the center grid node
`gll_point_ids[npol/2, npol/2]` as the `mu` entry, and holds a time
series for exactly the requested components and no others. -/
theorem c9 {nt nnod ncomp : ℕ} (Ex : Externals) (msh : MeshM nt nnod ncomp)
    (dump : DumpType) (source : SourceObj) (receiver : ReceiverDesc)
    (components : List Comp) (coordinates : Coordinates)
    (ei : ElementInfo nnod) (st : DBState nt nnod) (d : DataDict nt)
    (st' : DBState nt nnod)
    (hok : get_data Ex msh dump source receiver components coordinates ei st =
      Except.ok (d, st')) :
    d.mu = msh.mesh_mu (ei.gll_point_ids (msh.npol / 2) (msh.npol / 2)) ∧
      ∀ c, ((d.series c).isSome = true ↔ c ∈ components) := by
  cases dump with
  | fullfields => exact absurd hok (by simp [get_data])
  | strain_only => exact absurd hok (by simp [get_data])
  | displ_only =>
    cases source with
    | source tv lon colat =>
      unfold get_data at hok
      simp only [] at hok
      split at hok
      · simp at hok
      · next series hms =>
        simp only [Except.ok.injEq, Prod.mk.injEq] at hok
        obtain ⟨h1, _⟩ := hok
        rw [← h1]
        exact ⟨rfl, momentSynthesize_ok_isSome hms⟩
    | forceSource ftpr lon colat =>
      unfold get_data at hok
      simp only [] at hok
      split at hok
      · simp at hok
      · next dres hd =>
        simp only [Except.ok.injEq, Prod.mk.injEq] at hok
        obtain ⟨h1, _⟩ := hok
        rw [← h1]
        exact ⟨rfl, forceSynthesize_isSome Ex coordinates.phi _ components
          dres.1.1 dres.1.2⟩
    | other =>
      exact absurd hok (by simp [get_data])

/-- C9 witness: the concrete force query requesting only T. -/
theorem c9_witness :
    cforce_d.mu = cmsh5.mesh_mu (cei.gll_point_ids (cmsh5.npol / 2) (cmsh5.npol / 2)) ∧
      ((cforce_d.series Comp.T).isSome = true ↔ Comp.T ∈ [Comp.T]) ∧
      ((cforce_d.series Comp.Z).isSome = true ↔ Comp.Z ∈ [Comp.T]) :=
  ⟨(c9 cEx cmsh5 DumpType.displ_only (SourceObj.forceSource cftpr 0 0) crecv
      [Comp.T] ccoords cei cst0 cforce_d cforce_st rfl).1,
   (c9 cEx cmsh5 DumpType.displ_only (SourceObj.forceSource cftpr 0 0) crecv
      [Comp.T] ccoords cei cst0 cforce_d cforce_st rfl).2 Comp.T,
   (c9 cEx cmsh5 DumpType.displ_only (SourceObj.forceSource cftpr 0 0) crecv
      [Comp.T] ccoords cei cst0 cforce_d cforce_st rfl).2 Comp.Z⟩

/-- C1: for a moment-tensor query (displ_only mode) whose interpolated
strain groups are available, the returned per-component time series obey
at every time sample, with mij the rotated amplitude-normalized Voigt
tensor: Z is the contraction of mij over vertical Voigt terms 0,1,2 plus
twice term 4; R is minus the corresponding horizontal contraction; T is
twice the horizontal terms 3 and 5; N and E are the weighted sums of all
six horizontal Voigt terms with azimuth factors fac_1 = cos(phi),
fac_2 = -sin(phi) for N (fac_1 = sin(phi), fac_2 = cos(phi) for E),
fac_1 on terms 0,1,2,4, fac_2 on terms 3,5, weight 2 on terms 3,4,5, and
an overall sign flip of -1 applied only to N. -/
theorem c1 {nt nnod ncomp : ℕ} (Ex : Externals) (msh : MeshM nt nnod ncomp)
    (tensor_voigt : Fin 6 → ℚ) (lon colat : ℚ) (receiver : ReceiverDesc)
    (components : List Comp) (coordinates : Coordinates)
    (ei : ElementInfo nnod) (st : DBState nt nnod) (sx sz : StrainVec nt)
    (hstrain : (get_strain_interp Ex msh ei.id_elem (select_G_GT msh ei.axis).1
      (select_G_GT msh ei.axis).2 ei.col_points_xi ei.col_points_eta
      ei.corner_points ei.eltype ei.axis ei.xi ei.eta st.strain_buffer).1 =
      (some sx, some sz)) :
    get_data Ex msh DumpType.displ_only (SourceObj.source tensor_voigt lon colat)
        receiver components coordinates ei st =
      Except.ok
        (⟨msh.mesh_mu (ei.gll_point_ids (msh.npol / 2) (msh.npol / 2)),
          fun c =>
            match c with
            | Comp.Z =>
              if Comp.Z ∈ components then
                some (fun t =>
                  computeMij Ex tensor_voigt lon colat receiver coordinates msh.amplitude 0 * sz t 0
                  + computeMij Ex tensor_voigt lon colat receiver coordinates msh.amplitude 1 * sz t 1
                  + computeMij Ex tensor_voigt lon colat receiver coordinates msh.amplitude 2 * sz t 2
                  + 2 * computeMij Ex tensor_voigt lon colat receiver coordinates msh.amplitude 4 * sz t 4)
              else none
            | Comp.R =>
              if Comp.R ∈ components then
                some (fun t =>
                  -(sx t 0 * computeMij Ex tensor_voigt lon colat receiver coordinates msh.amplitude 0
                    + sx t 1 * computeMij Ex tensor_voigt lon colat receiver coordinates msh.amplitude 1
                    + sx t 2 * computeMij Ex tensor_voigt lon colat receiver coordinates msh.amplitude 2
                    + 2 * sx t 4 * computeMij Ex tensor_voigt lon colat receiver coordinates msh.amplitude 4))
              else none
            | Comp.T =>
              if Comp.T ∈ components then
                some (fun t =>
                  2 * (sx t 3 * computeMij Ex tensor_voigt lon colat receiver coordinates msh.amplitude 3
                    + sx t 5 * computeMij Ex tensor_voigt lon colat receiver coordinates msh.amplitude 5))
              else none
            | Comp.N =>
              if Comp.N ∈ components then
                some (fun t =>
                  -1 * (sx t 0 * computeMij Ex tensor_voigt lon colat receiver coordinates msh.amplitude 0 * Ex.cos coordinates.phi
                    + sx t 1 * computeMij Ex tensor_voigt lon colat receiver coordinates msh.amplitude 1 * Ex.cos coordinates.phi
                    + sx t 2 * computeMij Ex tensor_voigt lon colat receiver coordinates msh.amplitude 2 * Ex.cos coordinates.phi
                    + 2 * sx t 3 * computeMij Ex tensor_voigt lon colat receiver coordinates msh.amplitude 3 * (- Ex.sin coordinates.phi)
                    + 2 * sx t 4 * computeMij Ex tensor_voigt lon colat receiver coordinates msh.amplitude 4 * Ex.cos coordinates.phi
                    + 2 * sx t 5 * computeMij Ex tensor_voigt lon colat receiver coordinates msh.amplitude 5 * (- Ex.sin coordinates.phi)))
              else none
            | Comp.E =>
              if Comp.E ∈ components then
                some (fun t =>
                  sx t 0 * computeMij Ex tensor_voigt lon colat receiver coordinates msh.amplitude 0 * Ex.sin coordinates.phi
                  + sx t 1 * computeMij Ex tensor_voigt lon colat receiver coordinates msh.amplitude 1 * Ex.sin coordinates.phi
                  + sx t 2 * computeMij Ex tensor_voigt lon colat receiver coordinates msh.amplitude 2 * Ex.sin coordinates.phi
                  + 2 * sx t 3 * computeMij Ex tensor_voigt lon colat receiver coordinates msh.amplitude 3 * Ex.cos coordinates.phi
                  + 2 * sx t 4 * computeMij Ex tensor_voigt lon colat receiver coordinates msh.amplitude 4 * Ex.sin coordinates.phi
                  + 2 * sx t 5 * computeMij Ex tensor_voigt lon colat receiver coordinates msh.amplitude 5 * Ex.cos coordinates.phi)
              else none⟩,
         ⟨(get_strain_interp Ex msh ei.id_elem (select_G_GT msh ei.axis).1
            (select_G_GT msh ei.axis).2 ei.col_points_xi ei.col_points_eta
            ei.corner_points ei.eltype ei.axis ei.xi ei.eta
            st.strain_buffer).2, st.displ_buffer⟩) := by
  unfold get_data
  simp only []
  have hx : (get_strain_interp Ex msh ei.id_elem (select_G_GT msh ei.axis).1
      (select_G_GT msh ei.axis).2 ei.col_points_xi ei.col_points_eta
      ei.corner_points ei.eltype ei.axis ei.xi ei.eta st.strain_buffer).1.1 =
      some sx := by rw [hstrain]
  have hz2 : (get_strain_interp Ex msh ei.id_elem (select_G_GT msh ei.axis).1
      (select_G_GT msh ei.axis).2 ei.col_points_xi ei.col_points_eta
      ei.corner_points ei.eltype ei.axis ei.xi ei.eta st.strain_buffer).1.2 =
      some sz := by rw [hstrain]
  rw [hx, hz2, momentSynthesize_some]

/-- C1 witness: the concrete moment-tensor query with all components. -/
theorem c1_witness :
    get_data cEx cmsh5 DumpType.displ_only (SourceObj.source ctv 0 0)
        crecv ccompsAll ccoords cei cst0 =
      Except.ok
        (⟨cmsh5.mesh_mu (cei.gll_point_ids (cmsh5.npol / 2) (cmsh5.npol / 2)),
          fun c =>
            match c with
            | Comp.Z =>
              if Comp.Z ∈ ccompsAll then
                some (fun t => cmij 0 * csz t 0 + cmij 1 * csz t 1
                  + cmij 2 * csz t 2 + 2 * cmij 4 * csz t 4)
              else none
            | Comp.R =>
              if Comp.R ∈ ccompsAll then
                some (fun t => -(csx t 0 * cmij 0 + csx t 1 * cmij 1
                  + csx t 2 * cmij 2 + 2 * csx t 4 * cmij 4))
              else none
            | Comp.T =>
              if Comp.T ∈ ccompsAll then
                some (fun t => 2 * (csx t 3 * cmij 3 + csx t 5 * cmij 5))
              else none
            | Comp.N =>
              if Comp.N ∈ ccompsAll then
                some (fun t => -1 * (csx t 0 * cmij 0 * cEx.cos ccoords.phi
                  + csx t 1 * cmij 1 * cEx.cos ccoords.phi
                  + csx t 2 * cmij 2 * cEx.cos ccoords.phi
                  + 2 * csx t 3 * cmij 3 * (- cEx.sin ccoords.phi)
                  + 2 * csx t 4 * cmij 4 * cEx.cos ccoords.phi
                  + 2 * csx t 5 * cmij 5 * (- cEx.sin ccoords.phi)))
              else none
            | Comp.E =>
              if Comp.E ∈ ccompsAll then
                some (fun t => csx t 0 * cmij 0 * cEx.sin ccoords.phi
                  + csx t 1 * cmij 1 * cEx.sin ccoords.phi
                  + csx t 2 * cmij 2 * cEx.sin ccoords.phi
                  + 2 * csx t 3 * cmij 3 * cEx.cos ccoords.phi
                  + 2 * csx t 4 * cmij 4 * cEx.sin ccoords.phi
                  + 2 * csx t 5 * cmij 5 * cEx.cos ccoords.phi)
              else none⟩,
         ⟨cstrain.2, cst0.displ_buffer⟩) :=
  c1 cEx cmsh5 ctv 0 0 crecv ccompsAll ccoords cei cst0 csx csz rfl

/-- C7: for a force-source query (displ_only mode) the returned
per-component time series obey, with f the rotated amplitude-normalized
force vector: Z = displ_z0 f0 + displ_z2 f2; R = displ_x0 f0 +
displ_x2 f2; T = displ_x1 f1; and N/E = displ_x0 f0 fac_1 +
displ_x1 f1 fac_2 + displ_x2 f2 fac_1 with the azimuth factor pair
(cos phi, -sin phi) for N and (sin phi, cos phi) for E, and N negated. -/
theorem c7 {nt nnod ncomp : ℕ} (Ex : Externals) (msh : MeshM nt nnod ncomp)
    (force_tpr : Fin 3 → ℚ) (lon colat : ℚ) (receiver : ReceiverDesc)
    (components : List Comp) (coordinates : Coordinates)
    (ei : ElementInfo nnod) (st : DBState nt nnod) (dx dz : DisplVec nt)
    (dbuf : Buffer (DisplPair nt nnod))
    (hdispl : get_displacement Ex msh ei.id_elem ei.col_points_xi
      ei.col_points_eta ei.xi ei.eta st.displ_buffer =
      Except.ok ((dx, dz), dbuf)) :
    get_data Ex msh DumpType.displ_only
        (SourceObj.forceSource force_tpr lon colat) receiver components
        coordinates ei st =
      Except.ok
        (⟨msh.mesh_mu (ei.gll_point_ids (msh.npol / 2) (msh.npol / 2)),
          fun c =>
            match c with
            | Comp.Z =>
              if Comp.Z ∈ components then
                some (fun t =>
                  dz t 0 * computeForce Ex force_tpr lon colat receiver coordinates msh.amplitude 0
                  + dz t 2 * computeForce Ex force_tpr lon colat receiver coordinates msh.amplitude 2)
              else none
            | Comp.R =>
              if Comp.R ∈ components then
                some (fun t =>
                  dx t 0 * computeForce Ex force_tpr lon colat receiver coordinates msh.amplitude 0
                  + dx t 2 * computeForce Ex force_tpr lon colat receiver coordinates msh.amplitude 2)
              else none
            | Comp.T =>
              if Comp.T ∈ components then
                some (fun t =>
                  dx t 1 * computeForce Ex force_tpr lon colat receiver coordinates msh.amplitude 1)
              else none
            | Comp.N =>
              if Comp.N ∈ components then
                some (fun t =>
                  -1 * (dx t 0 * computeForce Ex force_tpr lon colat receiver coordinates msh.amplitude 0 * Ex.cos coordinates.phi
                    + dx t 1 * computeForce Ex force_tpr lon colat receiver coordinates msh.amplitude 1 * (- Ex.sin coordinates.phi)
                    + dx t 2 * computeForce Ex force_tpr lon colat receiver coordinates msh.amplitude 2 * Ex.cos coordinates.phi))
              else none
            | Comp.E =>
              if Comp.E ∈ components then
                some (fun t =>
                  dx t 0 * computeForce Ex force_tpr lon colat receiver coordinates msh.amplitude 0 * Ex.sin coordinates.phi
                  + dx t 1 * computeForce Ex force_tpr lon colat receiver coordinates msh.amplitude 1 * Ex.cos coordinates.phi
                  + dx t 2 * computeForce Ex force_tpr lon colat receiver coordinates msh.amplitude 2 * Ex.sin coordinates.phi)
              else none⟩,
         ⟨st.strain_buffer, dbuf⟩) := by
  unfold get_data
  simp only []
  rw [hdispl]
  simp only []
  rw [forceSynthesize_eq]

/-- C7 witness: the concrete force query with all components. -/
theorem c7_witness :
    get_data cEx cmsh5 DumpType.displ_only (SourceObj.forceSource cftpr 0 0)
        crecv ccompsAll ccoords cei cst0 =
      Except.ok
        (⟨cmsh5.mesh_mu (cei.gll_point_ids (cmsh5.npol / 2) (cmsh5.npol / 2)),
          fun c =>
            match c with
            | Comp.Z =>
              if Comp.Z ∈ ccompsAll then
                some (fun t => cdz t 0 * cforcev 0 + cdz t 2 * cforcev 2)
              else none
            | Comp.R =>
              if Comp.R ∈ ccompsAll then
                some (fun t => cdx t 0 * cforcev 0 + cdx t 2 * cforcev 2)
              else none
            | Comp.T =>
              if Comp.T ∈ ccompsAll then
                some (fun t => cdx t 1 * cforcev 1)
              else none
            | Comp.N =>
              if Comp.N ∈ ccompsAll then
                some (fun t => -1 * (cdx t 0 * cforcev 0 * cEx.cos ccoords.phi
                  + cdx t 1 * cforcev 1 * (- cEx.sin ccoords.phi)
                  + cdx t 2 * cforcev 2 * cEx.cos ccoords.phi))
              else none
            | Comp.E =>
              if Comp.E ∈ ccompsAll then
                some (fun t => cdx t 0 * cforcev 0 * cEx.sin ccoords.phi
                  + cdx t 1 * cforcev 1 * cEx.cos ccoords.phi
                  + cdx t 2 * cforcev 2 * cEx.sin ccoords.phi)
              else none⟩,
         ⟨cst0.strain_buffer, cdbuf1⟩) :=
  c7 cEx cmsh5 cftpr 0 0 crecv ccompsAll ccoords cei cst0 cdx cdz cdbuf1 rfl

/-- C2: if the batch path succeeds on a list of co-located sources, then
for every index the single-source path succeeds on that source from the
same initial state and its component-to-time-series mapping equals the
corresponding entry of the batch output (the batch computes the shared
decoded/interpolated field set once and loops only the rotation and
contraction per source); in particular a singleton batch reproduces the
single-source result. -/
theorem c2 {nt nnod ncomp : ℕ} (Ex : Externals) (msh : MeshM nt nnod ncomp)
    (dump : DumpType) (sources : List SourceObj) (receiver : ReceiverDesc)
    (components : List Comp) (coordinates : Coordinates)
    (ei : ElementInfo nnod) (st : DBState nt nnod) (params : Params)
    (outs : List (Comp → Option (Fin nt → ℚ))) (st' : DBState nt nnod)
    (hbatch : get_data_multiple Ex msh dump sources receiver components
      coordinates ei st = Except.ok ((params, outs), st'))
    (i : ℕ) (hi : i < sources.length) :
    outs.length = sources.length ∧
      (get_data Ex msh dump (sources.get ⟨i, hi⟩) receiver components
          coordinates ei st).map (fun p => p.1.series) =
        Except.ok (outs.getD i (fun _ => none)) := by
  cases dump with
  | fullfields => exact absurd hbatch (by simp [get_data_multiple])
  | strain_only => exact absurd hbatch (by simp [get_data_multiple])
  | displ_only =>
    unfold get_data_multiple at hbatch
    simp only [] at hbatch
    split at hbatch
    · simp at hbatch
    · next dres hd =>
      split at hbatch
      · simp at hbatch
      · next data_all hm =>
        simp only [Except.ok.injEq, Prod.mk.injEq] at hbatch
        obtain ⟨⟨_, houts⟩, _⟩ := hbatch
        subst houts
        obtain ⟨hlen, hget⟩ := mapME_ok hm
        refine ⟨hlen, ?_⟩
        obtain ⟨y, hfy, hgy⟩ := hget i hi
        rw [getD_of_get? _ hgy]
        cases hsrc : sources.get ⟨i, hi⟩ with
        | source tv lon colat =>
          rw [hsrc] at hfy
          simp only [] at hfy
          unfold get_data
          simp only []
          rw [hfy]
          rfl
        | forceSource ftpr lon colat =>
          rw [hsrc] at hfy
          simp only [Except.ok.injEq] at hfy
          unfold get_data
          simp only []
          rw [hd]
          simp only []
          rw [hfy]
          rfl
        | other =>
          rw [hsrc] at hfy
          simp at hfy

/-- C2 witness: a concrete two-source batch (one moment tensor, one
force) matches the single-source runs entrywise. -/
theorem c2_witness :
    (couts.length = csources.length ∧
      (get_data cEx cmsh5 DumpType.displ_only (csources.get ⟨0, by decide⟩)
          crecv ccompsAll ccoords cei cst0).map (fun p => p.1.series) =
        Except.ok (couts.getD 0 (fun _ => none))) ∧
      (get_data cEx cmsh5 DumpType.displ_only (csources.get ⟨1, by decide⟩)
          crecv ccompsAll ccoords cei cst0).map (fun p => p.1.series) =
        Except.ok (couts.getD 1 (fun _ => none)) :=
  ⟨c2 cEx cmsh5 DumpType.displ_only csources crecv ccompsAll ccoords cei cst0
      cparams couts cstB rfl 0 (by decide),
   (c2 cEx cmsh5 DumpType.displ_only csources crecv ccompsAll ccoords cei cst0
      cparams couts cstB rfl 1 (by decide)).2⟩

end InstaseisModel
